import Mathlib

/-
Verification of the treeviz frontend (seattle foliage map).

The development shallowly embeds the pieces of the code that the claims
are about:

* the GLSL colour-lookup math of `src/frontend/src/components/phenology-layer.ts`
  (the custom `fragmentShader`) and of
  `src/frontend/src/components/phenology-layer-extension.ts`
  (the `fs:DECKGL_FILTER_COLOR` injection), with GLSL float arithmetic
  modelled exactly over ℚ;
* the attribute declarations of `PhenologyExtension.initializeState` and the
  uniform/binding updates of `PhenologyExtension.updateState`;
* the component state of `FoliageMap` (`speciesIndexAccessor`, `loadMetadata`,
  `updateLayers`) and of the timeline slider / day-of-year signal.

The file is organised as definitions first, then the theorems.
-/

namespace Treeviz

/-! ## GLSL primitives

`clamp(x, lo, hi) = min(max(x, lo), hi)` and
`mod(x, y) = x - y * floor(x/y)`, as specified by GLSL, modelled over ℚ. -/

/-- GLSL `clamp(x, lo, hi)`. -/
def glslClamp (x lo hi : ℚ) : ℚ := min (max x lo) hi

/-- GLSL `mod(x, y) = x - y * floor(x/y)`. -/
def glslMod (x y : ℚ) : ℚ := x - y * ⌊x / y⌋

/-! ## The fragment shaders

`phenology-layer.ts`, `fragmentShader`:
  `float u = clamp(uTime / 365.0, 0.0, 1.0);`
  `float v = (vInstanceSpecies + 0.5) / uAtlasHeight;`

`phenology-layer-extension.ts`, `getShaders`, `fs:DECKGL_FILTER_COLOR` inject:
  `float adjustedTime = phenology.time - vPhenologyAdjustment;`
  `adjustedTime = mod(adjustedTime + 365.0, 365.0);`
  `float u = clamp(adjustedTime / 365.0, 0.0, 1.0);`
  `float v = (vPhenologySpecies + 0.5) / phenology.atlasHeight;` -/

/-- Value `u` of the custom fragment shader in `phenology-layer.ts`. -/
def shader_u (uTime : ℚ) : ℚ := glslClamp (uTime / 365) 0 1

/-- Value `v` of the custom fragment shader in `phenology-layer.ts`. -/
def shader_v (vInstanceSpecies uAtlasHeight : ℚ) : ℚ :=
  (vInstanceSpecies + 1/2) / uAtlasHeight

/-- Value `adjustedTime` of the `DECKGL_FILTER_COLOR` injection in
`phenology-layer-extension.ts`. -/
def adjustedTime (time vPhenologyAdjustment : ℚ) : ℚ :=
  glslMod (time - vPhenologyAdjustment + 365) 365

/-- Value `u` of the `DECKGL_FILTER_COLOR` injection in `phenology-layer-extension.ts`. -/
def phenologyExtension_u (time vPhenologyAdjustment : ℚ) : ℚ :=
  glslClamp (adjustedTime time vPhenologyAdjustment / 365) 0 1

/-- Value `v` of the `DECKGL_FILTER_COLOR` injection in `phenology-layer-extension.ts`. -/
def phenologyExtension_v (vPhenologySpecies atlasHeight : ℚ) : ℚ :=
  (vPhenologySpecies + 1/2) / atlasHeight

/-! ## Attribute declarations of `PhenologyExtension.initializeState` -/

/-- One entry of the table passed to `getAttributeManager()?.add` in
`PhenologyExtension.initializeState`. -/
structure AttributeDecl where
  size : Nat
  accessor : String
  type : String
  defaultValue : Option ℚ
deriving Repr, DecidableEq

/-- Key lookup on a list of string-keyed entries, modelling JavaScript
object property access `obj[key]` (keys of a JS object are unique). -/
def lookupKey {α : Type} (entries : List (String × α)) (k : String) : Option α :=
  match entries with
  | [] => none
  | (k2, v) :: rest => if k2 = k then some v else lookupKey rest k

/-- The attribute table added by `PhenologyExtension.initializeState`:
`instancePhenologySpecies` (accessor `getPhenologySpeciesIndex`, no default)
and `instancePhenologyAdjustment` (accessor `getPhenologyAdjustmentDays`,
`defaultValue: 0`). -/
def phenologyExtensionAttributes : List (String × AttributeDecl) :=
  [("instancePhenologySpecies",
    { size := 1, accessor := "getPhenologySpeciesIndex", type := "float32",
      defaultValue := none }),
   ("instancePhenologyAdjustment",
    { size := 1, accessor := "getPhenologyAdjustmentDays", type := "float32",
      defaultValue := some 0 })]

/-! ## `PhenologyExtension.updateState` -/

/-- Opaque handle for a luma.gl GPU texture. -/
abbrev Texture := Nat

/-- The `phenology` uniform block (`time`, `atlasHeight`), matching
`PhenologyUniforms` / `uniformTypes` in `phenology-layer-extension.ts`. -/
structure PhenologyUniforms where
  time : ℚ
  atlasHeight : ℚ
deriving Repr, DecidableEq

/-- The part of a luma.gl `Model`'s state touched by
`PhenologyExtension.updateState`: the `phenology` uniform block and the
`phenologyAtlas` texture binding (`none` = not bound). -/
structure ModelState where
  phenology : PhenologyUniforms
  phenologyAtlasBinding : Option Texture
deriving Repr, DecidableEq

/-- The extension props (`PhenologyExtensionProps`). `none` models an absent
or `null`/`undefined` value. -/
structure PhenologyExtensionProps where
  phenologyAtlas : Option Texture
  phenologyTime : Option ℚ
  phenologyAtlasHeight : Option ℚ
deriving Repr, DecidableEq

/-- The body of the `for (const model of models)` loop of
`PhenologyExtension.updateState`: set the `phenology` uniform block to
`{ time: props.phenologyTime ?? 0, atlasHeight: props.phenologyAtlasHeight ?? 1 }`
and, when `props.phenologyAtlas` is truthy, bind it as `phenologyAtlas`. -/
def updateModel (props : PhenologyExtensionProps) (model : ModelState) : ModelState :=
  let withUniforms : ModelState :=
    { model with
      phenology :=
        { time := props.phenologyTime.getD 0,
          atlasHeight := props.phenologyAtlasHeight.getD 1 } }
  match props.phenologyAtlas with
  | some tex => { withUniforms with phenologyAtlasBinding := some tex }
  | none => withUniforms

/-- Function `PhenologyExtension.updateState`: apply `updateModel` to every model
returned by `getModels()`. -/
def updateState (props : PhenologyExtensionProps) (models : List ModelState) :
    List ModelState :=
  models.map (updateModel props)

/-! ## `FoliageMap` (`foliage-map.ts`) -/

/-- The `atlasMapping` field: a species-name-to-atlas-row record, modelled as
the entry list of the JS object (keys unique). -/
abbrev Mapping := List (String × Int)

/-- Function `FoliageMap.speciesIndexAccessor`:
`const idx = this.atlasMapping[d.species];
 return idx !== undefined ? idx : this.atlasMapping['DEFAULT'] || 0;`
(the JS `||` yields `0` when the `DEFAULT` entry is `0` or missing). -/
def speciesIndexAccessor (atlasMapping : Mapping) (species : String) : Int :=
  match lookupKey atlasMapping species with
  | some idx => idx
  | none =>
    match lookupKey atlasMapping "DEFAULT" with
    | some d => if d = 0 then 0 else d
    | none => 0

/-- Expression `Object.keys(this.atlasMapping).length || 1` computed by
`FoliageMap.updateLayers` (`0` is falsy, so an empty mapping yields `1`). -/
def atlasHeightOf (atlasMapping : Mapping) : Nat :=
  if atlasMapping.length = 0 then 1 else atlasMapping.length

/-- The JSON body of a successful `./api/metadata` response; `atlas_mapping`
is `none` when the field is missing or falsy. -/
structure MetadataResponse where
  atlas_mapping : Option Mapping

/-- The props of the `PhenologyLayer` instance created by
`FoliageMap.updateLayers` (the fields set at the construction site). -/
structure PhenologyLayerDesc where
  id : String
  data : String
  getSpeciesIndex : String → Int
  uAtlas : Texture
  uAtlasHeight : Nat
  uTime : Int
  getRadius : ℚ
  radiusMinPixels : ℚ
  pickable : Bool

/-- The props of the debug `ScatterplotLayer` instance created by
`FoliageMap.updateLayers`. -/
structure DebugLayerDesc where
  id : String
  data : String
  getFillColor : List Nat
  getRadius : ℚ
  radiusMinPixels : ℚ
  pickable : Bool
  visible : Bool

/-- A layer descriptor handed to `deck.setProps`. -/
inductive LayerDesc where
  | phenology (p : PhenologyLayerDesc)
  | debug (d : DebugLayerDesc)

/-- Identifier of a layer descriptor (the `id` prop). -/
def LayerDesc.ident : LayerDesc → String
  | .phenology p => p.id
  | .debug d => d.id

/-- Visible flag of a debug layer descriptor, `none` on a phenology layer. -/
def LayerDesc.debugVisible : LayerDesc → Option Bool
  | .phenology _ => none
  | .debug d => some d.visible

/-- Atlas-height prop of a phenology layer descriptor, `none` on a debug
layer. -/
def LayerDesc.phenologyAtlasHeight : LayerDesc → Option Nat
  | .phenology p => some p.uAtlasHeight
  | .debug _ => none

/-- The part of the `MapboxOverlay` state that `FoliageMap` drives: the
installed layer list. -/
structure DeckState where
  layers : List LayerDesc

/-- The component state of `FoliageMap`: `deck`, `atlasTexture`,
`atlasMapping`, `showDebug`, `dayOfYear`. -/
structure FoliageMapState where
  deck : Option DeckState
  atlasTexture : Option Texture
  atlasMapping : Mapping
  showDebug : Bool
  dayOfYear : Int

/-- The initial field values of a fresh `FoliageMap` element:
`deck = null`, `atlasTexture = null`, `atlasMapping = {}`,
`showDebug = false`, `dayOfYear = 280`. -/
def initialFoliageMapState : FoliageMapState :=
  { deck := none, atlasTexture := none, atlasMapping := [],
    showDebug := false, dayOfYear := 280 }

/-- Function `FoliageMap.loadMetadata`: fetch `./api/metadata`, parse JSON and
set `this.atlasMapping = meta.atlas_mapping || {}`; a fetch or parse failure is
caught (logged) and leaves the state unchanged. The fetch outcome is passed in
as an `Except`. -/
def loadMetadata (st : FoliageMapState) (response : Except Unit MetadataResponse) :
    FoliageMapState :=
  match response with
  | .ok meta => { st with atlasMapping := meta.atlas_mapping.getD [] }
  | .error _ => st

/-- Function `FoliageMap.updateLayers`: return unchanged when `this.deck` or
`this.atlasTexture` is unset; otherwise install a fresh `PhenologyLayer` and
debug `ScatterplotLayer` pair via `deck.setProps`. -/
def updateLayers (st : FoliageMapState) : FoliageMapState :=
  match st.deck, st.atlasTexture with
  | some _, some tex =>
    let atlasHeight := atlasHeightOf st.atlasMapping
    let phenologyLayer : PhenologyLayerDesc :=
      { id := "phenology-layer",
        data := "./api/trees?limit=2000",
        getSpeciesIndex := speciesIndexAccessor st.atlasMapping,
        uAtlas := tex,
        uAtlasHeight := atlasHeight,
        uTime := st.dayOfYear,
        getRadius := 8,
        radiusMinPixels := 2,
        pickable := true }
    let debugLayer : DebugLayerDesc :=
      { id := "debug-locations",
        data := "./api/trees?limit=2000",
        getFillColor := [0, 0, 255, 180],
        getRadius := 6,
        radiusMinPixels := 2,
        pickable := false,
        visible := st.showDebug }
    { st with deck := some { layers := [.phenology phenologyLayer, .debug debugLayer] } }
  | _, _ => st

/-! ## Day-of-year state (`store.ts`, `timeline-slider.ts`) -/

/-- Initial value of `dayOfYearSignal` in `store.ts`. -/
def dayOfYearSignalInit : Int := 280

/-- The `min="1"` bound of the `sl-range` slider in `timeline-slider.ts`. -/
def sliderMin : Int := 1

/-- The `max="365"` bound of the `sl-range` slider in `timeline-slider.ts`. -/
def sliderMax : Int := 365

/-- Function `TimelineSlider.handleInput`: store
`parseInt(target.value, 10)` into `dayOfYearSignal`. The slider's value is
an integer, so the base-10 integer parse is the value itself. -/
def handleInput (sliderValue : Int) : Int := sliderValue

/-- The values `dayOfYearSignal` can reach: its initial value `280`, and the
result of `handleInput` on any slider value the `sl-range` constraints
(`min="1"`, `max="365"`, integer steps) allow. -/
inductive DayOfYearReachable : Int → Prop where
  | init : DayOfYearReachable dayOfYearSignalInit
  | input (prev v : Int) : DayOfYearReachable prev →
      sliderMin ≤ v → v ≤ sliderMax → DayOfYearReachable (handleInput v)

/-! ## Helper lemmas -/

theorem glslMod_eq_mul_fract (x y : ℚ) (hy : y ≠ 0) :
    glslMod x y = y * Int.fract (x / y) := by
  unfold glslMod Int.fract
  rw [mul_sub, mul_div_cancel₀ x hy]

theorem glslMod_nonneg (x y : ℚ) (hy : 0 < y) : 0 ≤ glslMod x y := by
  rw [glslMod_eq_mul_fract x y hy.ne']
  exact mul_nonneg hy.le (Int.fract_nonneg _)

theorem glslMod_lt (x y : ℚ) (hy : 0 < y) : glslMod x y < y := by
  rw [glslMod_eq_mul_fract x y hy.ne']
  calc y * Int.fract (x / y) < y * 1 :=
        (mul_lt_mul_left hy).mpr (Int.fract_lt_one _)
    _ = y := mul_one y

theorem glslMod_sub_right (x y : ℚ) (hy : y ≠ 0) :
    glslMod (x - y) y = glslMod x y := by
  rw [glslMod_eq_mul_fract _ y hy, glslMod_eq_mul_fract x y hy]
  have h : (x - y) / y = x / y - ((1 : ℤ) : ℚ) := by
    push_cast
    field_simp
  rw [h, Int.fract_sub_int]

theorem lookupKey_mem {α : Type} (entries : List (String × α)) (k : String) (v : α)
    (h : lookupKey entries k = some v) : (k, v) ∈ entries := by
  induction entries with
  | nil => simp [lookupKey] at h
  | cons p rest ih =>
    rw [lookupKey] at h
    by_cases hk : p.1 = k
    · simp only [hk, if_pos rfl] at h
      cases h
      subst hk
      exact List.mem_cons_self _ _
    · simp only [if_neg hk] at h
      exact List.mem_cons_of_mem _ (ih h)

theorem one_le_atlasHeightOf (m : Mapping) : 1 ≤ atlasHeightOf m := by
  unfold atlasHeightOf
  split
  · exact le_refl 1
  · omega

/-! ## Claims -/

/-- Claim C1: in the phenology fragment shaders the horizontal atlas
coordinate is `u = clamp(time/365, 0, 1)`: for every time value `t`, `u`
equals `t/365` when `0 ≤ t ≤ 365`, equals `0` when `t < 0`, and equals `1`
when `t > 365`; the extension's shader feeds `adjustedTime` into the same
formula. -/
theorem shader_u_is_clamped_time (t a : ℚ) :
    (0 ≤ t → t ≤ 365 → shader_u t = t / 365) ∧
    (t < 0 → shader_u t = 0) ∧
    (365 < t → shader_u t = 1) ∧
    phenologyExtension_u t a = shader_u (adjustedTime t a) := by
  unfold shader_u phenologyExtension_u glslClamp
  refine ⟨?_, ?_, ?_, rfl⟩
  · intro h0 h365
    have hmax : max (t / 365) 0 = t / 365 := max_eq_left (by positivity)
    have hmin : t / 365 ≤ 1 := by
      rw [div_le_one (by norm_num : (0:ℚ) < 365)]
      exact h365
    rw [hmax, min_eq_left hmin]
  · intro hneg
    have hmax : max (t / 365) 0 = 0 := max_eq_right (by
      apply le_of_lt
      exact div_neg_of_neg_of_pos hneg (by norm_num))
    rw [hmax]
    norm_num
  · intro hgt
    have h1 : (1 : ℚ) < t / 365 := by
      rw [lt_div_iff₀ (by norm_num : (0:ℚ) < 365)]
      linarith
    have hmax : max (t / 365) 0 = t / 365 := max_eq_left (by linarith)
    rw [hmax, min_eq_right h1.le]

/-- Witness for C1 at `t = 73`, `t = -1` and `t = 400`. -/
theorem shader_u_is_clamped_time_witness :
    shader_u 73 = 73 / 365 ∧ shader_u (-1) = 0 ∧ shader_u 400 = 1 :=
  ⟨(shader_u_is_clamped_time 73 0).1 (by norm_num) (by norm_num),
   (shader_u_is_clamped_time (-1) 0).2.1 (by norm_num),
   (shader_u_is_clamped_time 400 0).2.2.1 (by norm_num)⟩

/-- Claim C2: both shaders compute the vertical atlas coordinate as
`v = (s + 0.5)/h`, which, for atlas height `h > 0`, is the midpoint of the
normalised band `[s/h, (s+1)/h]` occupied by species row `s` — the centre of
the species' row. -/
theorem shader_v_samples_row_center (s h : ℚ) (hpos : 0 < h) :
    shader_v s h = (s + 1/2) / h ∧
    phenologyExtension_v s h = shader_v s h ∧
    shader_v s h = (s / h + (s + 1) / h) / 2 := by
  refine ⟨rfl, rfl, ?_⟩
  unfold shader_v
  field_simp
  ring

/-- Witness for C2 at `s = 2`, `h = 5`. -/
theorem shader_v_samples_row_center_witness :
    shader_v 2 5 = (2 + 1/2) / 5 ∧
    phenologyExtension_v 2 5 = shader_v 2 5 ∧
    shader_v 2 5 = (2 / 5 + (2 + 1) / 5) / 2 :=
  shader_v_samples_row_center 2 5 (by norm_num)

/-- Claim C3: the extension wraps the per-instance day offset around year
boundaries: `adjustedTime t a = mod(t - a + 365, 365)` lies in `[0, 365)`
and is unchanged when `a` shifts by `365`; the
`instancePhenologyAdjustment` attribute declares `defaultValue: 0`, and with
adjustment `0` the adjusted time is `mod(t + 365, 365)`. -/
theorem adjustedTime_wraps_year (t a : ℚ) :
    0 ≤ adjustedTime t a ∧
    adjustedTime t a < 365 ∧
    adjustedTime t (a + 365) = adjustedTime t a ∧
    (lookupKey phenologyExtensionAttributes "instancePhenologyAdjustment").map
      AttributeDecl.defaultValue = some (some 0) ∧
    adjustedTime t 0 = glslMod (t + 365) 365 := by
  refine ⟨glslMod_nonneg _ 365 (by norm_num),
          glslMod_lt _ 365 (by norm_num), ?_, by rfl, ?_⟩
  · unfold adjustedTime
    have h : t - (a + 365) + 365 = t - a + 365 - 365 := by ring
    rw [h, glslMod_sub_right _ 365 (by norm_num)]
  · unfold adjustedTime
    rw [sub_zero]

/-- Claim C4, counterexample: `speciesIndexAccessor` performs no clamping.
With `atlasMapping = { A: 5 }` the accessor returns `5` for species `A`
while `Object.keys(...).length || 1 = 1`, so the index reaching the shader's
`v` computation is not `< atlasHeight`. -/
theorem speciesIndexAccessor_not_clamped :
    ¬ (speciesIndexAccessor [("A", 5)] "A" < (atlasHeightOf [("A", 5)] : Int)) := by
  decide

/-- Claim C4, amended: the code never clamps the species index; the accessor
returns the raw mapping value (or the `DEFAULT` fallback, or `0`). The index
that reaches the shader's `v` computation satisfies
`0 ≤ index < atlasHeight` exactly under the assumption that every row index
stored in `atlasMapping` lies in `[0, number of keys)`; out-of-range texture
coordinates are otherwise handled only by the atlas sampler's
clamp-to-edge address mode. -/
theorem speciesIndexAccessor_in_range (m : Mapping) (species : String)
    (hvals : ∀ p ∈ m, 0 ≤ p.2 ∧ p.2 < (m.length : Int)) :
    0 ≤ speciesIndexAccessor m species ∧
    speciesIndexAccessor m species < (atlasHeightOf m : Int) := by
  have hlen : ∀ v : Int, 0 ≤ v → v < (m.length : Int) →
      0 ≤ v ∧ v < (atlasHeightOf m : Int) := by
    intro v h0 hv
    refine ⟨h0, ?_⟩
    unfold atlasHeightOf
    split
    · omega
    · exact_mod_cast hv
  have hzero : 0 ≤ (0 : Int) ∧ (0 : Int) < (atlasHeightOf m : Int) := by
    have := one_le_atlasHeightOf m
    constructor
    · exact le_refl 0
    · exact_mod_cast this
  cases hs : lookupKey m species with
  | some idx =>
    have heq : speciesIndexAccessor m species = idx := by
      simp [speciesIndexAccessor, hs]
    have hmem := lookupKey_mem m species idx hs
    have := hvals _ hmem
    rw [heq]
    exact hlen idx this.1 this.2
  | none =>
    cases hd : lookupKey m "DEFAULT" with
    | some d =>
      have heq : speciesIndexAccessor m species = if d = 0 then 0 else d := by
        simp [speciesIndexAccessor, hs, hd]
      have hmem := lookupKey_mem m "DEFAULT" d hd
      have hb := hvals _ hmem
      rw [heq]
      by_cases hdz : d = 0
      · rw [if_pos hdz]
        exact hzero
      · rw [if_neg hdz]
        exact hlen d hb.1 hb.2
    | none =>
      have heq : speciesIndexAccessor m species = 0 := by
        simp [speciesIndexAccessor, hs, hd]
      rw [heq]
      exact hzero

/-- Witness for C4 (amended) at `atlasMapping = { A: 0, B: 1 }`, species
`C` (falls through to the missing-`DEFAULT` case). -/
theorem speciesIndexAccessor_in_range_witness :
    0 ≤ speciesIndexAccessor [("A", 0), ("B", 1)] "C" ∧
    speciesIndexAccessor [("A", 0), ("B", 1)] "C" <
      (atlasHeightOf [("A", 0), ("B", 1)] : Int) :=
  speciesIndexAccessor_in_range [("A", 0), ("B", 1)] "C" (by decide)

/-- Claim C5: the day-of-year state is always an integer in `1..365`: the
signal starts at `280`, and every `handleInput` stores the (in-range) parsed
slider value, so every reachable value lies between `sliderMin = 1` and
`sliderMax = 365`. -/
theorem dayOfYear_in_range (s : Int) (h : DayOfYearReachable s) :
    1 ≤ s ∧ s ≤ 365 := by
  induction h with
  | init =>
    unfold dayOfYearSignalInit
    omega
  | input prev v _ hmin hmax _ =>
    unfold handleInput
    unfold sliderMin at hmin
    unfold sliderMax at hmax
    omega

/-- Witness for C5 at the initial signal value `280`. -/
theorem dayOfYear_in_range_witness : 1 ≤ (280 : Int) ∧ (280 : Int) ≤ 365 :=
  dayOfYear_in_range 280 DayOfYearReachable.init

/-- Claim C6: on every `PhenologyExtension.updateState` call, each model's
`phenology` uniform block is set to `time = phenologyTime ?? 0` and
`atlasHeight = phenologyAtlasHeight ?? 1`; the atlas texture is bound under
`phenologyAtlas` exactly when the `phenologyAtlas` prop is non-null, and the
binding is left unchanged otherwise; `updateState` applies this to every
model of the layer. -/
theorem updateState_sets_uniforms_and_bindings
    (props : PhenologyExtensionProps) (model : ModelState)
    (models : List ModelState) :
    (updateModel props model).phenology.time = props.phenologyTime.getD 0 ∧
    (updateModel props model).phenology.atlasHeight =
      props.phenologyAtlasHeight.getD 1 ∧
    (∀ tex, props.phenologyAtlas = some tex →
      (updateModel props model).phenologyAtlasBinding = some tex) ∧
    (props.phenologyAtlas = none →
      (updateModel props model).phenologyAtlasBinding =
        model.phenologyAtlasBinding) ∧
    updateState props models = models.map (updateModel props) := by
  refine ⟨?_, ?_, ?_, ?_, rfl⟩
  · cases hp : props.phenologyAtlas <;> simp [updateModel, hp]
  · cases hp : props.phenologyAtlas <;> simp [updateModel, hp]
  · intro tex h2
    simp [updateModel, h2]
  · intro h2
    simp [updateModel, h2]

/-- Witness for C6: concrete props with a bound atlas (`texture 7`,
`time = 120`, `atlasHeight = 3`) and concrete props with no atlas. -/
theorem updateState_sets_uniforms_and_bindings_witness :
    (updateModel ⟨some 7, some 120, some 3⟩ ⟨⟨0, 1⟩, none⟩).phenology.time = 120 ∧
    (updateModel ⟨some 7, some 120, some 3⟩ ⟨⟨0, 1⟩, none⟩).phenologyAtlasBinding =
      some 7 ∧
    (updateModel ⟨none, none, none⟩ ⟨⟨0, 1⟩, some 9⟩).phenology.atlasHeight = 1 ∧
    (updateModel ⟨none, none, none⟩ ⟨⟨0, 1⟩, some 9⟩).phenologyAtlasBinding =
      some 9 := by
  have h1 := updateState_sets_uniforms_and_bindings ⟨some 7, some 120, some 3⟩
    ⟨⟨0, 1⟩, none⟩ []
  have h2 := updateState_sets_uniforms_and_bindings ⟨none, none, none⟩
    ⟨⟨0, 1⟩, some 9⟩ []
  exact ⟨h1.1, h1.2.2.1 7 rfl, h2.2.1, h2.2.2.2.1 rfl⟩

/-- Claim C7: `loadMetadata` fetches the mapping once from the metadata
endpoint; on success `atlasMapping` becomes the response's `atlas_mapping`
field (empty when missing or falsy) and no other field changes; a fetch or
parse failure is caught and leaves the state — initially the empty
mapping — unchanged. -/
theorem loadMetadata_success_or_caught (st : FoliageMapState)
    (r : Except Unit MetadataResponse) :
    initialFoliageMapState.atlasMapping = [] ∧
    (∀ e, r = .error e → loadMetadata st r = st) ∧
    (∀ meta, r = .ok meta →
      (loadMetadata st r).atlasMapping = meta.atlas_mapping.getD [] ∧
      (loadMetadata st r).deck = st.deck ∧
      (loadMetadata st r).atlasTexture = st.atlasTexture ∧
      (loadMetadata st r).showDebug = st.showDebug ∧
      (loadMetadata st r).dayOfYear = st.dayOfYear) := by
  refine ⟨rfl, ?_, ?_⟩
  · intro e he
    subst he
    rfl
  · intro meta hm
    subst hm
    exact ⟨rfl, rfl, rfl, rfl, rfl⟩

/-- Witness for C7: a caught failure leaves the initial state unchanged; a
response carrying `atlas_mapping = { Acer: 2 }` installs that mapping. -/
theorem loadMetadata_success_or_caught_witness :
    loadMetadata initialFoliageMapState (.error ()) = initialFoliageMapState ∧
    (loadMetadata initialFoliageMapState
      (.ok ⟨some [("Acer", 2)]⟩)).atlasMapping = [("Acer", 2)] := by
  have h1 := loadMetadata_success_or_caught initialFoliageMapState (.error ())
  have h2 := loadMetadata_success_or_caught initialFoliageMapState
    (.ok ⟨some [("Acer", 2)]⟩)
  exact ⟨h1.2.1 () rfl, (h2.2.2 _ rfl).1⟩

/-- Claim C8: `speciesIndexAccessor` returns the mapped row of `d.species`
when present (even when it is `0`); otherwise the `DEFAULT` row when defined
and non-zero, and `0` in all remaining cases — so a `DEFAULT` entry mapped
to row `0` is indistinguishable from a missing `DEFAULT` entry. -/
theorem speciesIndexAccessor_semantics :
    (∀ (m : Mapping) (s : String),
      (∀ i, lookupKey m s = some i → speciesIndexAccessor m s = i) ∧
      (lookupKey m s = none → ∀ d, lookupKey m "DEFAULT" = some d → d ≠ 0 →
        speciesIndexAccessor m s = d) ∧
      (lookupKey m s = none → lookupKey m "DEFAULT" = some 0 →
        speciesIndexAccessor m s = 0) ∧
      (lookupKey m s = none → lookupKey m "DEFAULT" = none →
        speciesIndexAccessor m s = 0)) ∧
    (∀ (m1 m2 : Mapping),
      lookupKey m1 "DEFAULT" = some 0 → lookupKey m2 "DEFAULT" = none →
      (∀ s, s ≠ "DEFAULT" → lookupKey m1 s = lookupKey m2 s) →
      ∀ s, speciesIndexAccessor m1 s = speciesIndexAccessor m2 s) := by
  constructor
  · intro m s
    refine ⟨?_, ?_, ?_, ?_⟩
    · intro i hi
      simp [speciesIndexAccessor, hi]
    · intro hs d hd hdz
      simp [speciesIndexAccessor, hs, hd, hdz]
    · intro hs hd
      simp [speciesIndexAccessor, hs, hd]
    · intro hs hd
      simp [speciesIndexAccessor, hs, hd]
  · intro m1 m2 h1 h2 hagree s
    by_cases hs : s = "DEFAULT"
    · subst hs
      simp [speciesIndexAccessor, h1, h2]
    · have hcommon := hagree s hs
      cases hlook : lookupKey m2 s with
      | some i =>
        have hm1 : lookupKey m1 s = some i := hcommon.trans hlook
        simp [speciesIndexAccessor, hm1, hlook]
      | none =>
        have hm1 : lookupKey m1 s = none := hcommon.trans hlook
        simp [speciesIndexAccessor, hm1, hlook, h1, h2]

/-- Witness for C8: a present species wins, the non-zero `DEFAULT` fallback
fires for an absent species, and `DEFAULT: 0` behaves like no `DEFAULT`. -/
theorem speciesIndexAccessor_semantics_witness :
    speciesIndexAccessor [("A", 3)] "A" = 3 ∧
    speciesIndexAccessor [("B", 1), ("DEFAULT", 2)] "A" = 2 ∧
    speciesIndexAccessor [("DEFAULT", 0)] "X" = speciesIndexAccessor [] "X" := by
  have h := speciesIndexAccessor_semantics
  refine ⟨(h.1 [("A", 3)] "A").1 3 rfl, ?_, ?_⟩
  · exact (h.1 [("B", 1), ("DEFAULT", 2)] "A").2.1 rfl 2 rfl (by norm_num)
  · exact h.2 [("DEFAULT", 0)] [] rfl rfl
      (fun s hs => by simp [lookupKey, Ne.symm hs]) "X"

/-- Claim C9: the atlas-height divisor is always at least `1`:
`updateLayers` passes `Object.keys(atlasMapping).length || 1` (so `1` for an
empty mapping, the key count otherwise) as the phenology layer's atlas
height, and `updateState` substitutes `1` when the
`phenologyAtlasHeight` prop is absent, so `(speciesIndex + 0.5)/atlasHeight`
never divides by zero. -/
theorem atlasHeight_never_zero (m : Mapping) (props : PhenologyExtensionProps)
    (model : ModelState)
    (hp : props.phenologyAtlasHeight = none ∨
      props.phenologyAtlasHeight = some ((atlasHeightOf m : ℚ))) :
    1 ≤ atlasHeightOf m ∧
    (m = [] → atlasHeightOf m = 1) ∧
    (m ≠ [] → atlasHeightOf m = m.length) ∧
    1 ≤ (updateModel props model).phenology.atlasHeight ∧
    (updateModel props model).phenology.atlasHeight ≠ 0 ∧
    (∀ (st : FoliageMapState) (dk : DeckState) (tex : Texture),
      st.deck = some dk → st.atlasTexture = some tex →
      ((updateLayers st).deck).map (fun k => k.layers.map
          LayerDesc.phenologyAtlasHeight) =
        some [some (atlasHeightOf st.atlasMapping), none]) := by
  have hgd : (updateModel props model).phenology.atlasHeight =
      props.phenologyAtlasHeight.getD 1 := by
    cases hpa : props.phenologyAtlas <;> simp [updateModel, hpa]
  have huni : 1 ≤ (updateModel props model).phenology.atlasHeight := by
    rw [hgd]
    rcases hp with h | h
    · rw [h]
      norm_num
    · rw [h]
      have := one_le_atlasHeightOf m
      simp only [Option.getD_some]
      exact_mod_cast this
  refine ⟨one_le_atlasHeightOf m, ?_, ?_, huni, ?_, ?_⟩
  · intro h
    subst h
    rfl
  · intro h
    unfold atlasHeightOf
    rw [if_neg (fun hh => h (List.length_eq_zero.mp hh))]
  · intro hz
    rw [hz] at huni
    norm_num at huni
  · intro st dk tex hdk htex
    simp only [updateLayers, hdk, htex]
    rfl

/-- Witness for C9 at `atlasMapping = { A: 0 }` and props with no
`phenologyAtlasHeight`. -/
theorem atlasHeight_never_zero_witness :
    1 ≤ atlasHeightOf [("A", 0)] ∧
    (updateModel ⟨none, none, none⟩ ⟨⟨0, 1⟩, none⟩).phenology.atlasHeight ≠ 0 := by
  have h := atlasHeight_never_zero [("A", 0)] ⟨none, none, none⟩ ⟨⟨0, 1⟩, none⟩
    (Or.inl rfl)
  exact ⟨h.1, h.2.2.2.2.1⟩

/-- Claim C10: `updateLayers` is a no-op while the deck overlay or the atlas
texture is unset; when both are set it installs exactly two layers — the
phenology layer then the debug layer — and the debug layer's `visible` flag
equals the current `showDebug`. -/
theorem updateLayers_noop_or_installs_pair (st : FoliageMapState) :
    ((st.deck = none ∨ st.atlasTexture = none) → updateLayers st = st) ∧
    (∀ (dk : DeckState) (tex : Texture),
      st.deck = some dk → st.atlasTexture = some tex →
      ((updateLayers st).deck).map (fun k => k.layers.length) = some 2 ∧
      ((updateLayers st).deck).map (fun k => k.layers.map LayerDesc.ident) =
        some ["phenology-layer", "debug-locations"] ∧
      ((updateLayers st).deck).map (fun k => k.layers.map
          LayerDesc.debugVisible) = some [none, some st.showDebug]) := by
  constructor
  · intro h
    cases hdk : st.deck with
    | none => simp [updateLayers, hdk]
    | some dk =>
      cases htex : st.atlasTexture with
      | none => simp [updateLayers, hdk, htex]
      | some tex =>
        rcases h with h | h
        · rw [hdk] at h
          cases h
        · rw [htex] at h
          cases h
  · intro dk tex hdk htex
    simp only [updateLayers, hdk, htex]
    exact ⟨rfl, rfl, rfl⟩

/-- Witness for C10: a state with no deck is untouched; a state with deck
and texture set and `showDebug = true` gets the two layers with the debug
layer visible. -/
theorem updateLayers_noop_or_installs_pair_witness :
    updateLayers ⟨none, none, [], false, 280⟩ = ⟨none, none, [], false, 280⟩ ∧
    ((updateLayers ⟨some ⟨[]⟩, some 0, [], true, 280⟩).deck).map
        (fun k => k.layers.map LayerDesc.debugVisible) =
      some [none, some true] := by
  have h1 := updateLayers_noop_or_installs_pair ⟨none, none, [], false, 280⟩
  have h2 := updateLayers_noop_or_installs_pair ⟨some ⟨[]⟩, some 0, [], true, 280⟩
  exact ⟨h1.1 (Or.inl rfl), (h2.2 ⟨[]⟩ 0 rfl rfl).2.2⟩

end Treeviz
